import Mathlib

/-!
Verification of the Clubspot backend (src/backend/server.js).

The server is a single Express application over three Mongo collections
(User, Group, Post).  We embed the database as explicit lists of records,
each HTTP handler as a pure function from a database and request to a
response together with the updated database, and the jsonwebtoken/bcrypt
collaborators as idealized algebraic models of their documented contracts.
Mongo document ids are modelled as naturals drawn from a fresh counter.
-/

/-- A User document (userSchema in server.js). -/
structure UserRec where
  id : Nat
  displayName : String
  username : String
  password : String
  groups : List Nat
  board_groups : List Nat
  site_admin : Bool
deriving DecidableEq, Repr

/-- A Group document (groupSchema in server.js). -/
structure GroupRec where
  id : Nat
  name : String
  description : String
  photoUrl : Option String
  posts : List Nat
  members : List Nat
  admins : List Nat
deriving DecidableEq, Repr

/-- A Post document (postSchema in server.js). -/
structure PostRec where
  id : Nat
  name : String
  description : Option String
  group : Nat
  isEvent : Bool
  date : Option Nat
  location : Option String
  photoUrl : Option String
  username : String
  creationDate : Nat
deriving DecidableEq, Repr

/-- The persistent store: the three collections plus a fresh-id counter
standing for Mongo ObjectId generation. -/
structure DB where
  users : List UserRec
  groups : List GroupRec
  posts : List PostRec
  nextId : Nat
deriving DecidableEq, Repr

/-- The empty store. -/
def DB.empty : DB := ⟨[], [], [], 0⟩

/-- Group.findById: first group whose id matches. -/
def findGroupById (db : DB) (gid : Nat) : Option GroupRec :=
  db.groups.find? (fun g => g.id == gid)

/-- User.findById: first user whose id matches. -/
def findUserById (db : DB) (uid : Nat) : Option UserRec :=
  db.users.find? (fun u => u.id == uid)

/-- User.findOne on username. -/
def findUserByName (db : DB) (uname : String) : Option UserRec :=
  db.users.find? (fun u => u.username == uname)

/-- group.save() on an existing document: replace the stored group with
the matching id. -/
def saveGroup (db : DB) (gid : Nat) (g : GroupRec) : DB :=
  { db with groups := db.groups.map (fun x => if x.id == gid then g else x) }

/-- user.save() on an existing document: replace the stored user with the
matching id. -/
def saveUser (db : DB) (uid : Nat) (u : UserRec) : DB :=
  { db with users := db.users.map (fun x => if x.id == uid then u else x) }

/-- Idealized model of bcrypt.hash: a one-way tag of the password.  The
contract the code relies on is only that compare succeeds exactly on the
hashed password. -/
def bcryptHash (p : String) : String := "bcrypt$" ++ p

/-- Idealized model of bcrypt.compare. -/
def bcryptCompare (p h : String) : Bool := h == bcryptHash p

/-- The claims a login token carries: jwt.sign receives exactly
id, username and displayName. -/
structure TokenPayload where
  id : Nat
  username : String
  displayName : String
deriving DecidableEq, Repr

/-- Idealized model of a signed JWT: the payload, the expiry instant, and
a signature the holder cannot forge, modelled as the signed data paired
with the secret. -/
structure Token where
  payload : TokenPayload
  exp : Nat
  sig : String × TokenPayload × Nat
deriving DecidableEq, Repr

/-- One day in seconds: the "1d" expiresIn passed to jwt.sign. -/
def oneDay : Nat := 86400

/-- Idealized jwt.sign with an expiry window. -/
def jwtSign (secret : String) (p : TokenPayload) (now lifetime : Nat) : Token :=
  ⟨p, now + lifetime, (secret, p, now + lifetime)⟩

/-- Idealized jwt.verify: accept when the signature matches the carried
payload and expiry under this secret and the token has not expired. -/
def jwtVerify (secret : String) (now : Nat) (tok : Token) : Option TokenPayload :=
  if tok.sig = (secret, tok.payload, tok.exp) ∧ now < tok.exp then some tok.payload
  else none

/-- Response of POST /api/auth/register. -/
structure SimpleResp where
  status : Nat
  message : String
deriving DecidableEq, Repr

/-- Request body of POST /api/auth/register; absent fields are none. -/
structure RegisterReq where
  username : Option String
  displayName : Option String
  password : Option String
deriving DecidableEq, Repr

/-- POST /api/auth/register.  The duplicate-username branch models the
Mongo unique index on username: insertion fails with code 11000 exactly
when a user with that username is already stored, which the handler maps
to 400 "Username already exists.". -/
def register (db : DB) (r : RegisterReq) : SimpleResp × DB :=
  match r.username, r.displayName, r.password with
  | some uname, some dname, some pw =>
    if db.users.any (fun u => u.username == uname) then
      (⟨400, "Username already exists."⟩, db)
    else
      let newUser : UserRec := ⟨db.nextId, dname, uname, bcryptHash pw, [], [], false⟩
      (⟨201, "User registered successfully."⟩,
        { db with users := db.users ++ [newUser], nextId := db.nextId + 1 })
  | _, _, _ => (⟨400, "All fields are required."⟩, db)

/-- Response of POST /api/auth/login: status, message, returned
displayName, and the authToken cookie when one is set. -/
structure LoginResp where
  status : Nat
  message : String
  displayName : Option String
  cookie : Option Token
deriving DecidableEq, Repr

/-- POST /api/auth/login. -/
def login (db : DB) (secret : String) (now : Nat) (username password : String) : LoginResp :=
  match findUserByName db username with
  | none => ⟨404, "User not found.", none, none⟩
  | some user =>
    if bcryptCompare password user.password then
      let token := jwtSign secret ⟨user.id, user.username, user.displayName⟩ now oneDay
      ⟨200, "Login successful.", some user.displayName, some token⟩
    else
      ⟨401, "Invalid credentials.", none, none⟩

/-- Response of POST /api/auth/verify. -/
structure VerifyResp where
  status : Nat
  message : String
  payload : Option TokenPayload
deriving DecidableEq, Repr

/-- POST /api/auth/verify: decode the cookie-carried token. -/
def verifyEndpoint (secret : String) (now : Nat) (cookie : Option Token) : VerifyResp :=
  match cookie with
  | none => ⟨401, "Unauthorized: No token provided.", none⟩
  | some tok =>
    match jwtVerify secret now tok with
    | some p => ⟨200, "", some p⟩
    | none => ⟨401, "Invalid token.", none⟩

/-- Request body of the authenticated POST /api/posts handler. -/
structure PostReq where
  group : Option Nat
  postName : Option String
  description : Option String
  isEvent : Bool
  date : Option Nat
  location : Option String
  photoUrl : Option String
deriving DecidableEq, Repr

/-- Response of a post-creation handler. -/
structure PostResp where
  status : Nat
  message : String
  post : Option PostRec
deriving DecidableEq, Repr

/-- Authenticated POST /api/posts handler (the first registration of the
route).  uid and uname come from the verified token.  Mirrors the JS
checks in order: required fields, group existence, admin membership; on
success the new Post is saved and its id appended to the group's posts. -/
def createPostAuth (db : DB) (uid : Nat) (uname : String) (now : Nat) (r : PostReq) :
    PostResp × DB :=
  match r.group, r.postName with
  | some gid, some pname =>
    if r.isEvent && (r.date.isNone || r.location.isNone) then
      (⟨400, "Required fields are missing.", none⟩, db)
    else
      match findGroupById db gid with
      | none => (⟨404, "Group not found.", none⟩, db)
      | some selectedGroup =>
        if uid ∈ selectedGroup.admins then
          let newPost : PostRec :=
            ⟨db.nextId, pname, r.description, gid, r.isEvent, r.date, r.location,
              r.photoUrl, uname, now⟩
          let db1 : DB := { db with posts := db.posts ++ [newPost], nextId := db.nextId + 1 }
          let db2 := saveGroup db1 gid { selectedGroup with posts := selectedGroup.posts ++ [newPost.id] }
          (⟨201, "Post created successfully.", some newPost⟩, db2)
        else
          (⟨403, "You must be an admin to post in this group.", none⟩, db)
  | _, _ => (⟨400, "Required fields are missing.", none⟩, db)

/-- Request body of the legacy unauthenticated POST /api/posts handler. -/
structure LegacyPostReq where
  name : Option String
  description : Option String
  group : Option Nat
  isEvent : Bool
  date : Option Nat
  location : Option String
  photoUrl : Option String
  username : Option String
deriving DecidableEq, Repr

/-- Legacy unauthenticated POST /api/posts handler (second registration of
the route).  The JS guard rejects when name, group or username is absent
or when isEvent is falsy; it never checks date, location or that the
group exists, and it does not touch any Group document. -/
def createPostLegacy (db : DB) (now : Nat) (r : LegacyPostReq) : PostResp × DB :=
  match r.name, r.group, r.username with
  | some n, some gid, some uname =>
    if r.isEvent then
      let newPost : PostRec :=
        ⟨db.nextId, n, r.description, gid, r.isEvent, r.date, r.location,
          r.photoUrl, uname, now⟩
      (⟨201, "Post created successfully.", some newPost⟩,
        { db with posts := db.posts ++ [newPost], nextId := db.nextId + 1 })
    else
      (⟨400, "Name, group, and event status are required.", none⟩, db)
  | _, _, _ => (⟨400, "Name, group, and event status are required.", none⟩, db)

/-- Response of POST /api/groups/create. -/
structure GroupResp where
  status : Nat
  message : String
  group : Option GroupRec
deriving DecidableEq, Repr

/-- POST /api/groups/create.  The Group insert lands before the User
update; when the caller's User document is missing the JS throws after
the insert, so the group persists and the response is 500. -/
def createGroup (db : DB) (uid : Nat) (name description photoUrl : Option String) :
    GroupResp × DB :=
  match name, description with
  | some n, some d =>
    let newGroup : GroupRec := ⟨db.nextId, n, d, photoUrl, [], [uid], [uid]⟩
    let db1 : DB := { db with groups := db.groups ++ [newGroup], nextId := db.nextId + 1 }
    match findUserById db1 uid with
    | some user =>
      let db2 := saveUser db1 uid
        { user with groups := user.groups ++ [newGroup.id],
                    board_groups := user.board_groups ++ [newGroup.id] }
      (⟨201, "Group created successfully.", some newGroup⟩, db2)
    | none => (⟨500, "Error creating group.", none⟩, db1)
  | _, _ => (⟨400, "Name and description are required.", none⟩, db)

/-- POST /api/groups/join.  First write lands on the Group; if the User
document is then missing the JS throws, leaving the Group mutated. -/
def joinGroup (db : DB) (uid : Nat) (groupId : Option Nat) : SimpleResp × DB :=
  match groupId with
  | none => (⟨400, "Group ID is required."⟩, db)
  | some gid =>
    match findGroupById db gid with
    | none => (⟨404, "Group not found."⟩, db)
    | some group =>
      if uid ∈ group.members then
        (⟨400, "User is already a member of this group."⟩, db)
      else
        let db1 := saveGroup db gid { group with members := group.members ++ [uid] }
        match findUserById db1 uid with
        | some user =>
          (⟨200, "User joined the group successfully."⟩,
            saveUser db1 uid { user with groups := user.groups ++ [gid] })
        | none => (⟨500, "Error joining group."⟩, db1)

/-- POST /api/groups/leave.  Removes the caller from the group's members
and the group from the caller's groups, by the same filters the JS uses;
admins and board_groups are not touched. -/
def leaveGroup (db : DB) (uid : Nat) (groupId : Option Nat) : SimpleResp × DB :=
  match groupId with
  | none => (⟨400, "Group ID is required."⟩, db)
  | some gid =>
    match findGroupById db gid with
    | none => (⟨404, "Group not found."⟩, db)
    | some group =>
      if uid ∈ group.members then
        let db1 := saveGroup db gid { group with members := group.members.filter (fun m => m != uid) }
        match findUserById db1 uid with
        | some user =>
          (⟨200, "User left the group successfully."⟩,
            saveUser db1 uid { user with groups := user.groups.filter (fun x => x != gid) })
        | none => (⟨500, "Error leaving group."⟩, db1)
      else
        (⟨400, "User is not a member of this group."⟩, db)

/-- One group-mutating operation, as named in the reachability claim:
Create, Join, Leave, and the two post-creation handlers.  The caller id
and username are those carried by whatever token the request presented. -/
inductive Op where
  | create (uid : Nat) (name description : String) (photoUrl : Option String)
  | join (uid gid : Nat)
  | leave (uid gid : Nat)
  | postAuth (uid : Nat) (uname : String) (now : Nat) (r : PostReq)
  | postLegacy (now : Nat) (r : LegacyPostReq)
deriving Repr

/-- Whether an operation is a Leave. -/
def Op.isLeave : Op → Bool
  | .leave _ _ => true
  | _ => false

/-- Apply one operation to the store, keeping the resulting state. -/
def applyOp (db : DB) : Op → DB
  | .create uid n d p => (createGroup db uid (some n) (some d) p).2
  | .join uid gid => (joinGroup db uid (some gid)).2
  | .leave uid gid => (leaveGroup db uid (some gid)).2
  | .postAuth uid uname now r => (createPostAuth db uid uname now r).2
  | .postLegacy now r => (createPostLegacy db now r).2

/-- Run a sequence of operations from a store. -/
def runOps (db : DB) (ops : List Op) : DB := ops.foldl applyOp db

/-- The admins-are-members invariant of §3 of the spec: in every stored
group, every id in admins also appears in members. -/
def adminsSubMembers (db : DB) : Prop :=
  ∀ g ∈ db.groups, ∀ a ∈ g.admins, a ∈ g.members

instance (db : DB) : Decidable (adminsSubMembers db) := by
  unfold adminsSubMembers; infer_instance

/-! ### Helper lemmas -/

/-- A member of a saveGroup-style map-replace list is an original element
or the replacement. -/
lemma mem_map_replaceG {l : List GroupRec} {gid : Nat} {upd g : GroupRec}
    (hg : g ∈ l.map (fun x => if x.id == gid then upd else x)) :
    g ∈ l ∨ g = upd := by
  obtain ⟨x, hx, hfx⟩ := List.mem_map.mp hg
  by_cases hxid : (x.id == gid) = true
  · right; rw [if_pos hxid] at hfx; exact hfx.symm
  · left; rw [if_neg hxid] at hfx; exact hfx ▸ hx

/-- find? over a map-replace that targets exactly the found key returns
the replacement. -/
lemma find?_map_replace {α : Type} (key : α → Nat) (k : Nat) (upd : α)
    (hupd : key upd = k) :
    ∀ (l : List α) (x : α), l.find? (fun a => key a == k) = some x →
      (l.map (fun a => if key a == k then upd else a)).find? (fun a => key a == k) = some upd := by
  intro l
  induction l with
  | nil => intro x h; simp at h
  | cons a t ih =>
    intro x h
    by_cases hk : (key a == k) = true
    · simp only [List.map_cons, if_pos hk]
      rw [List.find?_cons_of_pos]
      simp [hupd]
    · simp only [List.map_cons, if_neg hk]
      rw [List.find?_cons_of_neg _ (by simp_all)]
      rw [List.find?_cons_of_neg _ (by simp_all)] at h
      exact ih x h

/-! ### C3: Join by an existing member is a rejected no-op -/

/-- C3: a Join request by an authenticated caller whose id is already in
the target group's members fails with 400 "already a member" and leaves
the whole store, in particular the Group record and the caller's User
record, unchanged. -/
theorem join_already_member_conflict (db : DB) (uid gid : Nat) (g : GroupRec)
    (hg : findGroupById db gid = some g) (hm : uid ∈ g.members) :
    joinGroup db uid (some gid) = (⟨400, "User is already a member of this group."⟩, db) := by
  simp [joinGroup, hg, hm]

/-- Witness for C3 at a concrete store. -/
theorem join_already_member_conflict_witness :
    joinGroup ⟨[], [⟨5, "g", "d", none, [], [3], []⟩], [], 6⟩ 3 (some 5)
      = (⟨400, "User is already a member of this group."⟩,
         ⟨[], [⟨5, "g", "d", none, [], [3], []⟩], [], 6⟩) :=
  join_already_member_conflict _ 3 5 ⟨5, "g", "d", none, [], [3], []⟩ (by decide) (by decide)

/-! ### C8: an event post without date or location is rejected -/

/-- C8: any authenticated post-creation request with isEvent true and a
missing date or location fails validation with 400 and changes nothing,
whatever the admin status of the caller. -/
theorem event_missing_fields_rejected (db : DB) (uid : Nat) (uname : String) (now : Nat)
    (r : PostReq) (he : r.isEvent = true) (hm : r.date = none ∨ r.location = none) :
    createPostAuth db uid uname now r = (⟨400, "Required fields are missing.", none⟩, db) := by
  obtain ⟨g0, pn, dsc, ev, dt, loc, ph⟩ := r
  simp only at he hm
  subst he
  cases g0 with
  | none => rfl
  | some gid =>
    cases pn with
    | none => rfl
    | some pname =>
      have hcond : (true && (dt.isNone || loc.isNone)) = true := by
        rcases hm with h | h <;> subst h <;> simp
      simp [createPostAuth, hcond]

/-- Witness for C8 at a concrete input: an admin posting an event with no
date is still rejected. -/
theorem event_missing_fields_rejected_witness :
    createPostAuth ⟨[], [⟨5, "g", "d", none, [], [3], [3]⟩], [], 6⟩ 3 "alice" 0
        ⟨some 5, some "Meetup", none, true, none, some "Park", none⟩
      = (⟨400, "Required fields are missing.", none⟩,
         ⟨[], [⟨5, "g", "d", none, [], [3], [3]⟩], [], 6⟩) :=
  event_missing_fields_rejected _ 3 "alice" 0 _ rfl (Or.inl rfl)

/-! ### C10: the legacy unauthenticated post handler -/

/-- C10: the legacy POST /api/posts handler rejects every request whose
isEvent is false with 400 and no state change; a request with isEvent
true and name, group and username present always creates the Post, with
no date/location requirement and no check that the group exists. -/
theorem legacy_post_isEvent_gate (db : DB) (now : Nat) (r : LegacyPostReq) :
    (r.isEvent = false →
      createPostLegacy db now r = (⟨400, "Name, group, and event status are required.", none⟩, db)) ∧
    (∀ n gid un, r.isEvent = true → r.name = some n → r.group = some gid → r.username = some un →
      createPostLegacy db now r =
        (⟨201, "Post created successfully.",
            some ⟨db.nextId, n, r.description, gid, true, r.date, r.location, r.photoUrl, un, now⟩⟩,
         { db with
            posts := db.posts ++
              [⟨db.nextId, n, r.description, gid, true, r.date, r.location, r.photoUrl, un, now⟩],
            nextId := db.nextId + 1 })) := by
  obtain ⟨nm, dsc, g0, ev, dt, loc, ph, un0⟩ := r
  constructor
  · intro hev
    simp only at hev
    subst hev
    cases nm <;> cases g0 <;> cases un0 <;> rfl
  · intro n gid un hev hn hg hu
    simp only at hev hn hg hu
    subst hev; subst hn; subst hg; subst hu
    rfl

/-- Witness for C10: a non-event request is rejected, and an event
request whose group does not exist and has no date is still created. -/
theorem legacy_post_isEvent_gate_witness :
    createPostLegacy DB.empty 7 ⟨some "n", none, some 9, false, none, none, none, some "u"⟩
        = (⟨400, "Name, group, and event status are required.", none⟩, DB.empty) ∧
    createPostLegacy DB.empty 7 ⟨some "n", none, some 9, true, none, none, none, some "u"⟩
        = (⟨201, "Post created successfully.",
              some ⟨0, "n", none, 9, true, none, none, none, "u", 7⟩⟩,
           ⟨[], [], [⟨0, "n", none, 9, true, none, none, none, "u", 7⟩], 1⟩) :=
  ⟨(legacy_post_isEvent_gate DB.empty 7 _).1 rfl,
   (legacy_post_isEvent_gate DB.empty 7 _).2 "n" 9 "u" rfl rfl rfl rfl⟩

/-! ### C2: validation order and the non-admin 403 on the authenticated
post handler -/

/-- The required-fields guard of the authenticated post handler, exactly
the JS condition group/postName absent or an event missing date or
location. -/
def postFieldsMissing (r : PostReq) : Bool :=
  r.group.isNone || r.postName.isNone || (r.isEvent && (r.date.isNone || r.location.isNone))

/-- C2: the authenticated post handler checks required fields first
(400 regardless of anything else), then group existence (404 regardless
of admin status), and only then admin membership; a caller who is not in
the group's admins gets 403 "forbidden" and the store, in particular the
group's posts list, is unchanged, so no Post record is created. -/
theorem authPost_order_and_forbidden (db : DB) (uid : Nat) (uname : String) (now : Nat)
    (r : PostReq) :
    (postFieldsMissing r = true →
      createPostAuth db uid uname now r = (⟨400, "Required fields are missing.", none⟩, db)) ∧
    (∀ gid, postFieldsMissing r = false → r.group = some gid → findGroupById db gid = none →
      createPostAuth db uid uname now r = (⟨404, "Group not found.", none⟩, db)) ∧
    (∀ gid g, postFieldsMissing r = false → r.group = some gid → findGroupById db gid = some g →
      uid ∉ g.admins →
      createPostAuth db uid uname now r
        = (⟨403, "You must be an admin to post in this group.", none⟩, db)) := by
  obtain ⟨g0, pn, dsc, ev, dt, loc, ph⟩ := r
  refine ⟨?_, ?_, ?_⟩
  · intro hmiss
    cases g0 with
    | none => rfl
    | some gid =>
      cases pn with
      | none => rfl
      | some pname =>
        simp only [postFieldsMissing, Option.isNone_some, Bool.false_or] at hmiss
        simp [createPostAuth, hmiss]
  · intro gid hok hg hfind
    cases pn with
    | none => simp [postFieldsMissing] at hok
    | some pname =>
      simp only at hg
      subst hg
      simp only [postFieldsMissing, Option.isNone_some, Bool.false_or] at hok
      simp [createPostAuth, hok, hfind]
  · intro gid g hok hg hfind hadm
    cases pn with
    | none => simp [postFieldsMissing] at hok
    | some pname =>
      simp only at hg
      subst hg
      simp only [postFieldsMissing, Option.isNone_some, Bool.false_or] at hok
      simp [createPostAuth, hok, hfind, hadm]

/-- Witness for C2: a complete event request to an existing group by a
non-admin caller yields 403 and an unchanged store. -/
theorem authPost_order_and_forbidden_witness :
    createPostAuth ⟨[], [⟨5, "g", "d", none, [], [3, 7], [7]⟩], [], 6⟩ 3 "bob" 0
        ⟨some 5, some "Meetup", none, true, some 1, some "Park", none⟩
      = (⟨403, "You must be an admin to post in this group.", none⟩,
         ⟨[], [⟨5, "g", "d", none, [], [3, 7], [7]⟩], [], 6⟩) :=
  (authPost_order_and_forbidden _ 3 "bob" 0 _).2.2 5 ⟨5, "g", "d", none, [], [3, 7], [7]⟩
    (by decide) rfl (by decide) (by decide)
/-! ### C6: successful group creation -/

/-- C6: an authenticated create with name and description present returns
201 with a group whose members and admins are exactly the caller, the
group is appended to the store, and the group id is appended to both the
caller's groups and board_groups lists. -/
theorem createGroup_success (db : DB) (uid : Nat) (n d : String) (photoUrl : Option String)
    (user : UserRec) (hu : findUserById db uid = some user) :
    (createGroup db uid (some n) (some d) photoUrl).1
        = ⟨201, "Group created successfully.", some ⟨db.nextId, n, d, photoUrl, [], [uid], [uid]⟩⟩ ∧
    (createGroup db uid (some n) (some d) photoUrl).2.groups
        = db.groups ++ [⟨db.nextId, n, d, photoUrl, [], [uid], [uid]⟩] ∧
    findUserById (createGroup db uid (some n) (some d) photoUrl).2 uid
        = some { user with
                 groups := user.groups ++ [db.nextId],
                 board_groups := user.board_groups ++ [db.nextId] } := by
  have huid : user.id = uid := by
    have h := List.find?_some (p := fun u : UserRec => u.id == uid) (by simpa [findUserById] using hu)
    simpa using h
  have hu1 : findUserById
      { db with
        groups := db.groups ++ [⟨db.nextId, n, d, photoUrl, [], [uid], [uid]⟩],
        nextId := db.nextId + 1 } uid = some user := hu
  have hres : createGroup db uid (some n) (some d) photoUrl
      = (⟨201, "Group created successfully.", some ⟨db.nextId, n, d, photoUrl, [], [uid], [uid]⟩⟩,
         saveUser
           { db with
             groups := db.groups ++ [⟨db.nextId, n, d, photoUrl, [], [uid], [uid]⟩],
             nextId := db.nextId + 1 } uid
           { user with
             groups := user.groups ++ [db.nextId],
             board_groups := user.board_groups ++ [db.nextId] }) := by
    simp only [createGroup]
    rw [hu1]
  refine ⟨by rw [hres], by rw [hres]; rfl, ?_⟩
  rw [hres]
  simp only [findUserById, saveUser]
  exact find?_map_replace UserRec.id uid _ (by simpa using huid) db.users user
    (by simpa [findUserById] using hu)

/-- Witness for C6 at a concrete store with one registered user. -/
theorem createGroup_success_witness :
    (createGroup ⟨[⟨0, "Alice", "alice", "h", [], [], false⟩], [], [], 1⟩ 0
        (some "Book Club") (some "Readers") none).1
      = ⟨201, "Group created successfully.", some ⟨1, "Book Club", "Readers", none, [], [0], [0]⟩⟩ ∧
    (createGroup ⟨[⟨0, "Alice", "alice", "h", [], [], false⟩], [], [], 1⟩ 0
        (some "Book Club") (some "Readers") none).2.groups
      = [⟨1, "Book Club", "Readers", none, [], [0], [0]⟩] ∧
    findUserById (createGroup ⟨[⟨0, "Alice", "alice", "h", [], [], false⟩], [], [], 1⟩ 0
        (some "Book Club") (some "Readers") none).2 0
      = some ⟨0, "Alice", "alice", "h", [1], [1], false⟩ := by
  simpa using createGroup_success ⟨[⟨0, "Alice", "alice", "h", [], [], false⟩], [], [], 1⟩ 0
    "Book Club" "Readers" none ⟨0, "Alice", "alice", "h", [], [], false⟩ (by decide)

/-! ### C7: Leave removes membership but keeps admin and board entries -/

/-- C7: a successful Leave removes every occurrence of the caller's id
from the group's members and every occurrence of the group's id from the
caller's groups, while the group's admins list and the caller's
board_groups list are kept exactly as they were. -/
theorem leaveGroup_success (db : DB) (uid gid : Nat) (g : GroupRec) (user : UserRec)
    (hg : findGroupById db gid = some g) (hm : uid ∈ g.members)
    (hu : findUserById db uid = some user) :
    (leaveGroup db uid (some gid)).1 = ⟨200, "User left the group successfully."⟩ ∧
    findGroupById (leaveGroup db uid (some gid)).2 gid
      = some { g with members := g.members.filter (fun m => m != uid) } ∧
    findUserById (leaveGroup db uid (some gid)).2 uid
      = some { user with groups := user.groups.filter (fun x => x != gid) } := by
  have hgid : g.id = gid := by
    have h := List.find?_some (p := fun x : GroupRec => x.id == gid) (by simpa [findGroupById] using hg)
    simpa using h
  have huid : user.id = uid := by
    have h := List.find?_some (p := fun u : UserRec => u.id == uid) (by simpa [findUserById] using hu)
    simpa using h
  have hu1 : findUserById
      (saveGroup db gid { g with members := g.members.filter (fun m => m != uid) }) uid
      = some user := hu
  have hres : leaveGroup db uid (some gid)
      = (⟨200, "User left the group successfully."⟩,
         saveUser (saveGroup db gid { g with members := g.members.filter (fun m => m != uid) })
           uid { user with groups := user.groups.filter (fun x => x != gid) }) := by
    simp only [leaveGroup]
    rw [hg]
    simp only [if_pos hm]
    rw [hu1]
  refine ⟨by rw [hres], ?_, ?_⟩
  · rw [hres]
    simp only [findGroupById, saveUser, saveGroup]
    exact find?_map_replace GroupRec.id gid _ (by simpa using hgid) db.groups g
      (by simpa [findGroupById] using hg)
  · rw [hres]
    simp only [findUserById, saveUser, saveGroup]
    exact find?_map_replace UserRec.id uid _ (by simpa using huid) db.users user
      (by simpa [findUserById] using hu)

/-- Witness for C7 at a concrete store where the leaving caller is also
an admin of the group and has it in board_groups: both survive Leave. -/
theorem leaveGroup_success_witness :
    (leaveGroup ⟨[⟨3, "A", "a", "h", [5], [5], false⟩],
        [⟨5, "g", "d", none, [], [3, 4], [3]⟩], [], 6⟩ 3 (some 5)).1
      = ⟨200, "User left the group successfully."⟩ ∧
    findGroupById (leaveGroup ⟨[⟨3, "A", "a", "h", [5], [5], false⟩],
        [⟨5, "g", "d", none, [], [3, 4], [3]⟩], [], 6⟩ 3 (some 5)).2 5
      = some ⟨5, "g", "d", none, [], [4], [3]⟩ ∧
    findUserById (leaveGroup ⟨[⟨3, "A", "a", "h", [5], [5], false⟩],
        [⟨5, "g", "d", none, [], [3, 4], [3]⟩], [], 6⟩ 3 (some 5)).2 3
      = some ⟨3, "A", "a", "h", [], [5], false⟩ := by
  simpa using leaveGroup_success ⟨[⟨3, "A", "a", "h", [5], [5], false⟩],
      [⟨5, "g", "d", none, [], [3, 4], [3]⟩], [], 6⟩ 3 5
    ⟨5, "g", "d", none, [], [3, 4], [3]⟩ ⟨3, "A", "a", "h", [5], [5], false⟩
    (by decide) (by decide) (by decide)

/-! ### C9: duplicate registration -/

/-- C9: registering twice with the same fresh username succeeds once
(201), the second attempt fails with the distinct 400 duplicate-username
conflict and changes nothing, and exactly one stored user carries that
username afterwards. -/
theorem register_twice_conflict (db : DB) (uname dname pw : String)
    (hfresh : db.users.any (fun u => u.username == uname) = false) :
    (register db ⟨some uname, some dname, some pw⟩).1.status = 201 ∧
    register (register db ⟨some uname, some dname, some pw⟩).2 ⟨some uname, some dname, some pw⟩
      = (⟨400, "Username already exists."⟩, (register db ⟨some uname, some dname, some pw⟩).2) ∧
    ((register (register db ⟨some uname, some dname, some pw⟩).2
        ⟨some uname, some dname, some pw⟩).2.users.countP
      (fun u => u.username == uname)) = 1 := by
  have hstep1 : register db ⟨some uname, some dname, some pw⟩
      = (⟨201, "User registered successfully."⟩,
         { db with
           users := db.users ++ [⟨db.nextId, dname, uname, bcryptHash pw, [], [], false⟩],
           nextId := db.nextId + 1 }) := by
    simp only [register]
    rw [if_neg (by simp [hfresh])]
  have hdup : (db.users ++ [(⟨db.nextId, dname, uname, bcryptHash pw, [], [], false⟩ : UserRec)]).any
      (fun u => u.username == uname) = true := by
    simp [List.any_append]
  have hstep2 : register
      { db with
        users := db.users ++ [⟨db.nextId, dname, uname, bcryptHash pw, [], [], false⟩],
        nextId := db.nextId + 1 } ⟨some uname, some dname, some pw⟩
      = (⟨400, "Username already exists."⟩,
         { db with
           users := db.users ++ [⟨db.nextId, dname, uname, bcryptHash pw, [], [], false⟩],
           nextId := db.nextId + 1 }) := by
    simp only [register]
    rw [if_pos hdup]
  refine ⟨by rw [hstep1], by rw [hstep1, hstep2], ?_⟩
  rw [hstep1, hstep2]
  have hzero : db.users.countP (fun u => u.username == uname) = 0 := by
    rw [List.countP_eq_zero]
    intro u hu
    have := List.any_eq_false.mp hfresh u hu
    simpa using this
  simp [List.countP_append, hzero, List.countP_cons]

/-- Witness for C9 from the empty store. -/
theorem register_twice_conflict_witness :
    (register DB.empty ⟨some "alice", some "Alice", some "pw"⟩).1.status = 201 ∧
    register (register DB.empty ⟨some "alice", some "Alice", some "pw"⟩).2
        ⟨some "alice", some "Alice", some "pw"⟩
      = (⟨400, "Username already exists."⟩,
         (register DB.empty ⟨some "alice", some "Alice", some "pw"⟩).2) ∧
    ((register (register DB.empty ⟨some "alice", some "Alice", some "pw"⟩).2
        ⟨some "alice", some "Alice", some "pw"⟩).2.users.countP
      (fun u => u.username == "alice")) = 1 :=
  register_twice_conflict DB.empty "alice" "Alice" "pw" (by decide)

/-! ### C4: login token contents, expiry, and verification -/

/-- C4: a successful login issues a token embedding exactly the caller's
id, username and displayName, expiring oneDay = 86400 seconds (24 hours)
after issuance; verify before expiry returns 200 with the same triple,
while an expired token or a token whose payload was tampered with under
the same signature is rejected with 401. -/
theorem login_token_roundtrip (db : DB) (secret : String) (now : Nat)
    (username password : String) (user : UserRec)
    (hu : findUserByName db username = some user)
    (hp : bcryptCompare password user.password = true) :
    ∃ tok, (login db secret now username password).cookie = some tok ∧
      tok.payload = ⟨user.id, user.username, user.displayName⟩ ∧
      tok.exp = now + oneDay ∧
      (∀ t, t < now + oneDay →
        verifyEndpoint secret t (some tok)
          = ⟨200, "", some ⟨user.id, user.username, user.displayName⟩⟩) ∧
      (∀ t, now + oneDay ≤ t →
        verifyEndpoint secret t (some tok) = ⟨401, "Invalid token.", none⟩) ∧
      (∀ t tok2, tok2.sig = tok.sig → tok2.payload ≠ tok.payload →
        verifyEndpoint secret t (some tok2) = ⟨401, "Invalid token.", none⟩) := by
  refine ⟨jwtSign secret ⟨user.id, user.username, user.displayName⟩ now oneDay, ?_, rfl, rfl,
    ?_, ?_, ?_⟩
  · simp [login, hu, hp]
  · intro t ht
    simp [verifyEndpoint, jwtVerify, jwtSign, ht]
  · intro t ht
    simp [verifyEndpoint, jwtVerify, jwtSign, Nat.not_lt.mpr ht]
  · intro t tok2 hsig hpay
    have hne : ¬ (tok2.sig = (secret, tok2.payload, tok2.exp) ∧ t < tok2.exp) := by
      rintro ⟨heq, -⟩
      rw [hsig] at heq
      exact hpay (congrArg (fun q => q.2.1) heq).symm
    simp [verifyEndpoint, jwtVerify, hne]

/-- Witness for C4 at a concrete one-user store. -/
theorem login_token_roundtrip_witness :
    ∃ tok, (login ⟨[⟨0, "Alice", "alice", bcryptHash "pw", [], [], false⟩], [], [], 1⟩
        "s" 100 "alice" "pw").cookie = some tok ∧
      tok.payload = ⟨0, "alice", "Alice"⟩ ∧
      tok.exp = 100 + oneDay ∧
      (∀ t, t < 100 + oneDay →
        verifyEndpoint "s" t (some tok) = ⟨200, "", some ⟨0, "alice", "Alice"⟩⟩) ∧
      (∀ t, 100 + oneDay ≤ t →
        verifyEndpoint "s" t (some tok) = ⟨401, "Invalid token.", none⟩) ∧
      (∀ t tok2, tok2.sig = tok.sig → tok2.payload ≠ tok.payload →
        verifyEndpoint "s" t (some tok2) = ⟨401, "Invalid token.", none⟩) :=
  login_token_roundtrip ⟨[⟨0, "Alice", "alice", bcryptHash "pw", [], [], false⟩], [], [], 1⟩
    "s" 100 "alice" "pw" ⟨0, "Alice", "alice", bcryptHash "pw", [], [], false⟩
    (by decide) (by decide)

/-! ### C5: what a failed login reveals -/

/-- C5 counterexample: the two kinds of failed login are distinguishable.
With one stored user alice, the unknown-username attempt answers 404
"User not found." while the wrong-password attempt answers 401 "Invalid
credentials.", so the responses differ, refuting the claim that they are
indistinguishable to the caller. -/
theorem login_failure_distinguishable :
    login ⟨[⟨0, "Alice", "alice", bcryptHash "pw", [], [], false⟩], [], [], 1⟩ "s" 0 "bob" "pw"
      ≠ login ⟨[⟨0, "Alice", "alice", bcryptHash "pw", [], [], false⟩], [], [], 1⟩ "s" 0
          "alice" "wrong" := by decide

/-- C5 amended: a failed login reveals nothing beyond which class it is
in, but the classes differ.  All unknown-username failures produce one
fixed response (404 "User not found.") whatever the supplied password,
all wrong-password failures against a given store produce another fixed
response (401 "Invalid credentials.") whatever wrong password was tried,
and the two responses are distinguishable, so the failure does reveal
whether the username exists. -/
theorem login_failure_classes (db : DB) (secret : String) (now : Nat) :
    (∀ u1 u2 p1 p2, findUserByName db u1 = none → findUserByName db u2 = none →
      login db secret now u1 p1 = login db secret now u2 p2) ∧
    (∀ u user p1 p2, findUserByName db u = some user →
      bcryptCompare p1 user.password = false → bcryptCompare p2 user.password = false →
      login db secret now u p1 = login db secret now u p2) ∧
    (∀ u1 u2 user2 p1 p2, findUserByName db u1 = none → findUserByName db u2 = some user2 →
      bcryptCompare p2 user2.password = false →
      login db secret now u1 p1 ≠ login db secret now u2 p2) := by
  refine ⟨?_, ?_, ?_⟩
  · intro u1 u2 p1 p2 h1 h2
    simp [login, h1, h2]
  · intro u user p1 p2 hu h1 h2
    simp [login, hu, h1, h2]
  · intro u1 u2 user2 p1 p2 h1 h2 hp2 heq
    rw [show login db secret now u1 p1 = ⟨404, "User not found.", none, none⟩ by
          simp [login, h1],
        show login db secret now u2 p2 = ⟨401, "Invalid credentials.", none, none⟩ by
          simp [login, h2, hp2]] at heq
    simp at heq

/-- Witness for the amended C5 at a concrete store: two different wrong
passwords for alice get identical responses, while an unknown username
gets a different response. -/
theorem login_failure_classes_witness :
    login ⟨[⟨0, "Alice", "alice", bcryptHash "pw", [], [], false⟩], [], [], 1⟩ "s" 0
        "alice" "wrong1"
      = login ⟨[⟨0, "Alice", "alice", bcryptHash "pw", [], [], false⟩], [], [], 1⟩ "s" 0
          "alice" "wrong2" ∧
    login ⟨[⟨0, "Alice", "alice", bcryptHash "pw", [], [], false⟩], [], [], 1⟩ "s" 0
        "bob" "pw"
      ≠ login ⟨[⟨0, "Alice", "alice", bcryptHash "pw", [], [], false⟩], [], [], 1⟩ "s" 0
          "alice" "wrong1" :=
  ⟨(login_failure_classes ⟨[⟨0, "Alice", "alice", bcryptHash "pw", [], [], false⟩], [], [], 1⟩
      "s" 0).2.1 "alice" ⟨0, "Alice", "alice", bcryptHash "pw", [], [], false⟩ "wrong1" "wrong2"
      (by decide) (by decide) (by decide),
   (login_failure_classes ⟨[⟨0, "Alice", "alice", bcryptHash "pw", [], [], false⟩], [], [], 1⟩
      "s" 0).2.2 "bob" "alice" ⟨0, "Alice", "alice", bcryptHash "pw", [], [], false⟩ "pw" "wrong1"
      (by decide) (by decide) (by decide)⟩

/-! ### C1: the admins-are-members invariant over reachable states -/

/-- C1 counterexample: from the empty store, Create a group as user 0 and
then Leave it as user 0.  Leave removes the caller from members but not
from admins, so the reached state has a group with admins = [0] and
members = [], violating the invariant. -/
theorem adminsSubMembers_violated_by_leave :
    ¬ adminsSubMembers
        (runOps DB.empty [Op.create 0 "Book Club" "Readers" none, Op.leave 0 0]) := by
  decide

/-- A single Leave-free operation preserves the admins-are-members
invariant: Create installs the creator in both lists, Join only extends
members, and both post handlers never touch members or admins. -/
lemma applyOp_preserves (db : DB) (op : Op) (hop : op.isLeave = false)
    (h : adminsSubMembers db) : adminsSubMembers (applyOp db op) := by
  cases op with
  | create uid n d p =>
    have hgood : ∀ g ∈ db.groups ++ [(⟨db.nextId, n, d, p, [], [uid], [uid]⟩ : GroupRec)],
        ∀ a ∈ g.admins, a ∈ g.members := by
      intro g hg a ha
      rcases List.mem_append.mp hg with h1 | h2
      · exact h g h1 a ha
      · have hge : g = ⟨db.nextId, n, d, p, [], [uid], [uid]⟩ := by simpa using h2
        subst hge
        simpa using ha
    simp only [applyOp, createGroup]
    split
    · exact hgood
    · exact hgood
  | join uid gid =>
    simp only [applyOp, joinGroup]
    split
    · exact h
    · next group heq =>
      by_cases hmem : uid ∈ group.members
      · rw [if_pos hmem]; exact h
      · rw [if_neg hmem]
        have hgrp : group ∈ db.groups :=
          List.mem_of_find?_eq_some (by simpa [findGroupById] using heq)
        have hgood : ∀ g ∈ db.groups.map
            (fun x => if x.id == gid then
              { group with members := group.members ++ [uid] } else x),
            ∀ a ∈ g.admins, a ∈ g.members := by
          intro g hg a ha
          rcases mem_map_replaceG hg with h1 | h2
          · exact h g h1 a ha
          · subst h2
            exact List.mem_append.mpr (Or.inl (h group hgrp a ha))
        split
        · exact hgood
        · exact hgood
  | leave uid gid => simp [Op.isLeave] at hop
  | postAuth uid uname now r =>
    obtain ⟨g0, pn, dsc, ev, dt, loc, ph⟩ := r
    cases g0 with
    | none => exact h
    | some gid =>
      cases pn with
      | none => exact h
      | some pname =>
        simp only [applyOp, createPostAuth]
        split
        · exact h
        · split
          · exact h
          · next selectedGroup heq =>
            have hgrp : selectedGroup ∈ db.groups :=
              List.mem_of_find?_eq_some (by simpa [findGroupById] using heq)
            by_cases hadm : uid ∈ selectedGroup.admins
            · rw [if_pos hadm]
              intro g hg a ha
              rcases mem_map_replaceG hg with h1 | h2
              · exact h g h1 a ha
              · subst h2
                exact h selectedGroup hgrp a ha
            · rw [if_neg hadm]; exact h
  | postLegacy now r =>
    obtain ⟨nm, dsc, g0, ev, dt, loc, ph, un0⟩ := r
    cases nm with
    | none => exact h
    | some n =>
      cases g0 with
      | none => exact h
      | some gid =>
        cases un0 with
        | none => exact h
        | some un =>
          cases ev
          · exact h
          · exact h

/-- C1 amended: the admins-are-members invariant does hold in every state
reachable from the empty store by Create, Join and post-creation
operations alone; it is only Leave that can break it, as the
counterexample shows. -/
theorem adminsSubMembers_reachable_no_leave (ops : List Op)
    (h : ∀ op ∈ ops, op.isLeave = false) :
    adminsSubMembers (runOps DB.empty ops) := by
  have gen : ∀ (l : List Op) (db : DB), adminsSubMembers db →
      (∀ op ∈ l, op.isLeave = false) → adminsSubMembers (runOps db l) := by
    intro l
    induction l with
    | nil => intro db hdb _; exact hdb
    | cons op t ih =>
      intro db hdb hl
      exact ih (applyOp db op) (applyOp_preserves db op (hl op (by simp)) hdb)
        (fun o ho => hl o (by simp [ho]))
  exact gen ops DB.empty (by intro g hg; simp [DB.empty] at hg) h

/-- Witness for the amended C1: a concrete Leave-free trace with a
create, a join by another user, and an authenticated post. -/
theorem adminsSubMembers_reachable_no_leave_witness :
    adminsSubMembers (runOps DB.empty
      [Op.create 0 "Book Club" "Readers" none, Op.join 1 0,
       Op.postAuth 0 "alice" 5 ⟨some 0, some "Meetup", none, false, none, none, none⟩]) :=
  adminsSubMembers_reachable_no_leave
    [Op.create 0 "Book Club" "Readers" none, Op.join 1 0,
     Op.postAuth 0 "alice" 5 ⟨some 0, some "Meetup", none, false, none, none, none⟩]
    (by decide)
